import Mathlib

/-!
Formal model of the two brownie deployment scripts of the iotex-staking
repository (scripts/ganache_deploy.py and scripts/testnet_deploy.py).

Each script is a straight-line Python procedure that issues a fixed sequence
of remote calls: contract deployments, state-changing contract calls, and
read-only view calls.  We embed each script as the list of remote calls it
issues, in program order, with the concrete arguments and transaction
parameters written in the source.  Local framework operations that touch no
contract (project.load, accounts access, Contract.from_abi, print formatting
itself) are not remote calls and are not part of the sequences; the view
calls made to produce printed values are.
-/

namespace IotexStaking

/-- A signer identity.  ganacheAcct i is brownie accounts[i] on ganache;
loadedAcct s is accounts.load(s) on the testnet. -/
inductive Account where
  | ganacheAcct : Nat → Account
  | loadedAcct : String → Account
deriving DecidableEq

/-- Handles for the six contract instances each script deploys: three
implementation contracts and the three TransparentUpgradeableProxy
instances wrapping them.  Calls made through the Contract.from_abi views
(transparent_stIOTX, transparent_staking, transparent_redeem) target the
proxy addresses, so their targets are the proxy ids. -/
inductive ContractId where
  | stIOTXImplId
  | stakingImplId
  | redeemImplId
  | stIOTXProxyId
  | stakingProxyId
  | redeemProxyId
deriving DecidableEq

/-- The four kinds of contract the scripts deploy: the stIOTX token, the
IOTEXStaking contract, the IotexRedeem contract, and the
TransparentUpgradeableProxy wrapper. -/
inductive ContractKind where
  | stIOTXKind
  | stakingKind
  | redeemKind
  | proxyKind
deriving DecidableEq

/-- A positional contract-level argument of a call. -/
inductive Arg where
  /-- the address of a deployed contract instance -/
  | ref : ContractId → Arg
  /-- the address of an account -/
  | acct : Account → Arg
  | boolArg : Bool → Arg
  /-- a numeric literal amount, e.g. 0 -/
  | natAmt : Nat → Arg
  /-- a brownie amount string, e.g. the string 1 ethers -/
  | strAmt : String → Arg
  /-- time.time() + offset seconds, evaluated when the call is built -/
  | deadlineArg : Nat → Arg
  /-- the empty initializer bytes passed to each proxy constructor -/
  | emptyBytesArg
  /-- a value read back from the chain by an enclosed view call -/
  | observedArg
deriving DecidableEq

/-- The transaction-parameter dictionary of a deployment or state-changing
call: sender, optional explicit gas limit, optional attached value. -/
structure TxParams where
  sender : Account
  gas : Option Nat
  value : Option String
deriving DecidableEq

/-- One remote call issued by a script. -/
inductive Call where
  /-- ContractName.deploy(args..., txparams); the ContractId is the handle
  naming the freshly deployed instance -/
  | deploy : ContractKind → List Arg → TxParams → ContractId → Call
  /-- a state-changing call target.name(args..., txparams) -/
  | contractCall : ContractId → String → List Arg → TxParams → Call
  /-- a read-only call target.name(args...) with no txparams dictionary -/
  | viewCall : ContractId → String → List Arg → Call
deriving DecidableEq

/-- ganache_deploy owner: accounts[0].  The literal accounts[0] senders of
pullPending and claim denote this same account. -/
def ownerG : Account := Account.ganacheAcct 0

/-- ganache_deploy deployer: accounts[1]. -/
def deployerG : Account := Account.ganacheAcct 1

/-- testnet_deploy owner: accounts.load of the iotex-owner keystore. -/
def ownerT : Account := Account.loadedAcct "iotex-owner"

/-- testnet_deploy deployer: accounts.load of the iotex-deployer keystore. -/
def deployerT : Account := Account.loadedAcct "iotex-deployer"

/-- The constant GAS_LIMIT = 6721975 defined at the top of both scripts. -/
def GAS_LIMIT : Nat := 6721975

/-- txparams with only a sender. -/
def tx0 (s : Account) : TxParams := ⟨s, none, none⟩

/-- txparams with a sender and gas GAS_LIMIT. -/
def txg (s : Account) : TxParams := ⟨s, some GAS_LIMIT, none⟩

/-- txparams with a sender and an attached value amount. -/
def txv (s : Account) (v : String) : TxParams := ⟨s, none, some v⟩

/-- The sequence of remote calls issued by ganache_deploy.main, in program
order.  Nested expressions are issued innermost first, and the arguments of
a print are issued left to right. -/
def ganacheCalls : List Call := [
  Call.deploy ContractKind.stIOTXKind [] (tx0 deployerG) ContractId.stIOTXImplId,
  Call.deploy ContractKind.proxyKind
    [Arg.ref ContractId.stIOTXImplId, Arg.acct deployerG, Arg.emptyBytesArg]
    (tx0 deployerG) ContractId.stIOTXProxyId,
  Call.deploy ContractKind.stakingKind [] (tx0 deployerG) ContractId.stakingImplId,
  Call.deploy ContractKind.proxyKind
    [Arg.ref ContractId.stakingImplId, Arg.acct deployerG, Arg.emptyBytesArg]
    (tx0 deployerG) ContractId.stakingProxyId,
  Call.deploy ContractKind.redeemKind [] (txg deployerG) ContractId.redeemImplId,
  Call.deploy ContractKind.proxyKind
    [Arg.ref ContractId.redeemImplId, Arg.acct deployerG, Arg.emptyBytesArg]
    (txg deployerG) ContractId.redeemProxyId,
  Call.contractCall ContractId.stIOTXProxyId "initialize" [] (txg ownerG),
  Call.contractCall ContractId.stIOTXProxyId "setMintable"
    [Arg.ref ContractId.stakingProxyId, Arg.boolArg true] (txg ownerG),
  Call.contractCall ContractId.stakingProxyId "initialize" [] (txg ownerG),
  Call.contractCall ContractId.stakingProxyId "setStIOTXContractAddress"
    [Arg.ref ContractId.stIOTXProxyId] (txg ownerG),
  Call.contractCall ContractId.stakingProxyId "setRedeemContract"
    [Arg.ref ContractId.redeemProxyId] (txg ownerG),
  Call.viewCall ContractId.stakingProxyId "exchangeRatio" [],
  Call.viewCall ContractId.stIOTXProxyId "balanceOf" [Arg.acct ownerG],
  Call.contractCall ContractId.stakingProxyId "mint"
    [Arg.natAmt 0, Arg.deadlineArg 600] (txv ownerG "1 ethers"),
  Call.viewCall ContractId.stakingProxyId "exchangeRatio" [],
  Call.viewCall ContractId.stIOTXProxyId "balanceOf" [Arg.acct ownerG],
  Call.contractCall ContractId.stakingProxyId "pullPending"
    [Arg.acct ownerG] (tx0 ownerG),
  Call.viewCall ContractId.stakingProxyId "exchangeRatio" [],
  Call.contractCall ContractId.stakingProxyId "pushBalance"
    [Arg.strAmt "1.1 ethers"] (tx0 ownerG),
  Call.viewCall ContractId.stakingProxyId "exchangeRatio" [],
  Call.contractCall ContractId.stIOTXProxyId "approve"
    [Arg.ref ContractId.stakingProxyId, Arg.strAmt "1000000 ethers"] (tx0 ownerG),
  Call.viewCall ContractId.stIOTXProxyId "balanceOf" [Arg.acct ownerG],
  Call.viewCall ContractId.stIOTXProxyId "allowance"
    [Arg.acct ownerG, Arg.ref ContractId.stakingProxyId],
  Call.contractCall ContractId.stakingProxyId "redeem"
    [Arg.strAmt "0.5 ethers", Arg.natAmt 0, Arg.deadlineArg 600] (tx0 ownerG),
  Call.contractCall ContractId.stakingProxyId "redeemUnderlying"
    [Arg.strAmt "0.5 ethers", Arg.strAmt "100 ethers", Arg.deadlineArg 600] (tx0 ownerG),
  Call.viewCall ContractId.stakingProxyId "exchangeRatio" [],
  Call.viewCall ContractId.stakingProxyId "debtOf" [Arg.acct ownerG],
  Call.contractCall ContractId.stakingProxyId "payDebts" [] (txv ownerG "0.55 ethers"),
  Call.viewCall ContractId.stakingProxyId "exchangeRatio" [],
  Call.viewCall ContractId.stakingProxyId "debtOf" [Arg.acct ownerG],
  Call.contractCall ContractId.stakingProxyId "pushBalance"
    [Arg.strAmt "0.55 ethers"] (tx0 ownerG),
  Call.viewCall ContractId.stakingProxyId "exchangeRatio" [],
  Call.viewCall ContractId.redeemProxyId "balanceOf" [Arg.acct ownerG],
  Call.viewCall ContractId.redeemProxyId "balanceOf" [Arg.acct ownerG],
  Call.contractCall ContractId.redeemProxyId "claim" [Arg.observedArg] (tx0 ownerG),
  Call.viewCall ContractId.redeemProxyId "balanceOf" [Arg.acct ownerG]
]

/-- The sequence of remote calls issued by testnet_deploy.main, in program
order.  The script ends after setRedeemContract. -/
def testnetCalls : List Call := [
  Call.deploy ContractKind.stIOTXKind [] (txg deployerT) ContractId.stIOTXImplId,
  Call.deploy ContractKind.proxyKind
    [Arg.ref ContractId.stIOTXImplId, Arg.acct deployerT, Arg.emptyBytesArg]
    (txg deployerT) ContractId.stIOTXProxyId,
  Call.deploy ContractKind.stakingKind [] (txg deployerT) ContractId.stakingImplId,
  Call.deploy ContractKind.proxyKind
    [Arg.ref ContractId.stakingImplId, Arg.acct deployerT, Arg.emptyBytesArg]
    (txg deployerT) ContractId.stakingProxyId,
  Call.deploy ContractKind.redeemKind [] (txg deployerT) ContractId.redeemImplId,
  Call.deploy ContractKind.proxyKind
    [Arg.ref ContractId.redeemImplId, Arg.acct deployerT, Arg.emptyBytesArg]
    (txg deployerT) ContractId.redeemProxyId,
  Call.contractCall ContractId.stIOTXProxyId "initialize" [] (txg ownerT),
  Call.contractCall ContractId.stIOTXProxyId "setMintable"
    [Arg.ref ContractId.stakingProxyId, Arg.boolArg true] (txg ownerT),
  Call.contractCall ContractId.stakingProxyId "initialize" [] (txg ownerT),
  Call.contractCall ContractId.stakingProxyId "setStIOTXContractAddress"
    [Arg.ref ContractId.stIOTXProxyId] (txg ownerT),
  Call.contractCall ContractId.stakingProxyId "setRedeemContract"
    [Arg.ref ContractId.redeemProxyId] (txg ownerT)
]

/-! ## Structural observations on call sequences -/

/-- The names of the three cross-reference wiring setters. -/
def wiringNames : List String := ["setMintable", "setStIOTXContractAddress", "setRedeemContract"]

/-- True when the call is a state-changing contract call with the given name. -/
def callNamed (n : String) : Call → Bool
  | Call.contractCall _ m _ _ => m == n
  | _ => false

/-- True when some call of the sequence is a state-changing call named n. -/
def invokes (l : List Call) (n : String) : Bool := l.any (callNamed n)

/-- True when some call of the sequence is a view call named n. -/
def observes (l : List Call) (n : String) : Bool :=
  l.any fun c =>
    match c with
    | Call.viewCall _ m _ => m == n
    | _ => false

/-- The senders of the deployments and state-changing calls, in order
(view calls carry no txparams dictionary). -/
def senders (l : List Call) : List Account :=
  l.filterMap fun c =>
    match c with
    | Call.deploy _ _ t _ => some t.sender
    | Call.contractCall _ _ _ t => some t.sender
    | Call.viewCall _ _ _ => none

/-- The kinds of the deployments of the sequence, in order. -/
def deployedKinds (l : List Call) : List ContractKind :=
  l.filterMap fun c =>
    match c with
    | Call.deploy k _ _ _ => some k
    | _ => none

/-- The explicit gas field of each deployment or state-changing call:
some g for a call whose txparams carry gas, some none for one whose
txparams omit gas, skipping view calls. -/
def gasFields (l : List Call) : List (Option Nat) :=
  l.filterMap fun c =>
    match c with
    | Call.deploy _ _ t _ => some t.gas
    | Call.contractCall _ _ _ t => some t.gas
    | Call.viewCall _ _ _ => none

/-- True for the three proxy instance handles. -/
def isProxyId : ContractId → Bool
  | ContractId.stIOTXProxyId => true
  | ContractId.stakingProxyId => true
  | ContractId.redeemProxyId => true
  | _ => false

/-- A proxy constructor argument list is well formed over the list impls of
already deployed implementation handles when it is exactly the address of
one of them, an account address, and the empty initializer bytes. -/
def proxyArgsOk (impls : List ContractId) : List Arg → Bool
  | [Arg.ref c, Arg.acct _, Arg.emptyBytesArg] => impls.contains c
  | _ => false

/-- Scans the sequence, accumulating the handles of deployed implementation
(non-proxy) contracts, and checks every proxy deployment against the
implementations deployed strictly before it. -/
def proxiesAfterImpls (impls : List ContractId) : List Call → Bool
  | [] => true
  | Call.deploy k args _ rid :: rest =>
      if k = ContractKind.proxyKind then
        proxyArgsOk impls args && proxiesAfterImpls impls rest
      else
        proxiesAfterImpls (rid :: impls) rest
  | _ :: rest => proxiesAfterImpls impls rest

/-- The admin argument (second constructor argument) of each proxy
deployment of the sequence, in order. -/
def proxyAdmins (l : List Call) : List Account :=
  l.filterMap fun c =>
    match c with
    | Call.deploy ContractKind.proxyKind (_ :: Arg.acct a :: _) _ _ => some a
    | _ => none

/-- The senders of the state-changing calls issued through a proxy-wrapped
contract, in order. -/
def proxySenders (l : List Call) : List Account :=
  l.filterMap fun c =>
    match c with
    | Call.contractCall t _ _ tx => if isProxyId t then some tx.sender else none
    | _ => none

/-- The targets of the calls whose method name is the string initialize,
in order. -/
def initTargets (l : List Call) : List ContractId :=
  l.filterMap fun c =>
    match c with
    | Call.contractCall t n _ _ => if n == "initialize" then some t else none
    | _ => none

/-- Every call named initialize passes no contract-level arguments and
supplies exactly a sender and a gas limit (no attached value). -/
def initCallsBare (l : List Call) : Bool :=
  l.all fun c =>
    match c with
    | Call.contractCall _ n args t =>
        !(n == "initialize") || (args.isEmpty && t.gas.isSome && t.value.isNone)
    | _ => true

/-- The deadline offsets (seconds added to time.time()) among the
contract-level arguments of a call. -/
def deadlineOffsets : Call → List Nat
  | Call.contractCall _ _ args _ =>
      args.filterMap fun a =>
        match a with
        | Arg.deadlineArg k => some k
        | _ => none
  | _ => []

/-- The names of the three time-limited operations taking a deadline. -/
def timedNames : List String := ["mint", "redeem", "redeemUnderlying"]

/-- True when the call is a state-changing call to a time-limited operation. -/
def isTimed : Call → Bool
  | Call.contractCall _ n _ _ => timedNames.contains n
  | _ => false

/-- The concrete wall-clock value of a deadline argument built at time now:
time.time() + offset. -/
def deadlineValue (now offset : Nat) : Nat := now + offset

/-! ## The phase classifications of claim C3 -/

/-- The five-phase classification asserted by the spec reading: 0 for
implementation deployments, 1 for proxy deployments, 2 for initialize
calls, 3 for wiring setters, 4 for the scripted smoke-test operations. -/
def phase5 : Call → Nat
  | Call.deploy k _ _ _ => if k = ContractKind.proxyKind then 1 else 0
  | Call.contractCall _ n _ _ =>
      if n == "initialize" then 2
      else if wiringNames.contains n then 3
      else 4
  | Call.viewCall _ _ _ => 4

/-- The coarser three-phase classification the scripts do follow: 0 for all
deployments, 1 for initialize calls and wiring setters, 2 for the
smoke-test operations and observers. -/
def phase3 : Call → Nat
  | Call.deploy _ _ _ _ => 0
  | Call.contractCall _ n _ _ =>
      if n == "initialize" || wiringNames.contains n then 1 else 2
  | Call.viewCall _ _ _ => 2

/-- True when the list of phase numbers never decreases. -/
def nondecr : List Nat → Bool
  | [] => true
  | [_] => true
  | a :: b :: r => decide (a ≤ b) && nondecr (b :: r)

/-- Scans the sequence accumulating the targets already sent an initialize
call, and checks that every wiring setter is sent to an already
initialized target. -/
def initBeforeSetters (inited : List ContractId) : List Call → Bool
  | [] => true
  | Call.contractCall t n _ _ :: rest =>
      if n == "initialize" then initBeforeSetters (t :: inited) rest
      else if wiringNames.contains n then
        inited.contains t && initBeforeSetters inited rest
      else initBeforeSetters inited rest
  | _ :: rest => initBeforeSetters inited rest

/-! ## Erasure of amounts, timing parameters and account identities (C2) -/

/-- The role an account plays in a script. -/
inductive Role where
  | ownerRole
  | deployerRole
  | otherRole
deriving DecidableEq

/-- The role of an account in ganache_deploy: accounts[0] is the owner and
accounts[1] the deployer. -/
def roleG (a : Account) : Role :=
  if a = ownerG then Role.ownerRole
  else if a = deployerG then Role.deployerRole
  else Role.otherRole

/-- The role of an account in testnet_deploy: the iotex-owner keystore is
the owner and the iotex-deployer keystore the deployer. -/
def roleT (a : Account) : Role :=
  if a = ownerT then Role.ownerRole
  else if a = deployerT then Role.deployerRole
  else Role.otherRole

/-- An argument with amounts, deadlines and account identities erased. -/
inductive ArgShape where
  | refS : ContractId → ArgShape
  | acctS : Role → ArgShape
  | boolS : Bool → ArgShape
  | amountS
  | deadlineS
  | emptyBytesS
  | observedS
deriving DecidableEq

/-- txparams with the gas limit erased, the sender mapped to its role and
the attached value reduced to its presence. -/
structure TxShape where
  senderRole : Role
  hasValue : Bool
deriving DecidableEq

/-- A call with amounts, timing parameters and account identities erased. -/
inductive CallShape where
  | deployS : ContractKind → List ArgShape → TxShape → ContractId → CallShape
  | callS : ContractId → String → List ArgShape → TxShape → CallShape
  | viewS : ContractId → String → List ArgShape → CallShape
deriving DecidableEq

/-- Erase one argument under a given account-to-role mapping. -/
def eraseArg (role : Account → Role) : Arg → ArgShape
  | Arg.ref c => ArgShape.refS c
  | Arg.acct a => ArgShape.acctS (role a)
  | Arg.boolArg b => ArgShape.boolS b
  | Arg.natAmt _ => ArgShape.amountS
  | Arg.strAmt _ => ArgShape.amountS
  | Arg.deadlineArg _ => ArgShape.deadlineS
  | Arg.emptyBytesArg => ArgShape.emptyBytesS
  | Arg.observedArg => ArgShape.observedS

/-- Erase the txparams under a given account-to-role mapping. -/
def eraseTx (role : Account → Role) (t : TxParams) : TxShape :=
  ⟨role t.sender, t.value.isSome⟩

/-- Erase one call under a given account-to-role mapping. -/
def eraseCall (role : Account → Role) : Call → CallShape
  | Call.deploy k args t rid =>
      CallShape.deployS k (args.map (eraseArg role)) (eraseTx role t) rid
  | Call.contractCall tgt n args t =>
      CallShape.callS tgt n (args.map (eraseArg role)) (eraseTx role t)
  | Call.viewCall tgt n args =>
      CallShape.viewS tgt n (args.map (eraseArg role))

/-- Erase a whole call sequence. -/
def eraseSeq (role : Account → Role) (l : List Call) : List CallShape :=
  l.map (eraseCall role)

/-! ## Execution with failure (C5)

The scripts contain no exception handler, no loop and no retry: execution
issues the calls in program order and an uncaught failure aborts the script
at the failing call.  issuedFrom models this: given an oracle saying which
positions fail, it returns the calls actually issued, stopping right after
the first failing one. -/

/-- The calls issued when execution starts at position i of the remaining
list: calls are issued in order and the first failure aborts the script. -/
def issuedFrom (fails : Nat → Bool) : Nat → List Call → List Call
  | _, [] => []
  | i, c :: rest => if fails i then [c] else c :: issuedFrom fails (i + 1) rest

/-! ## Aggregate shape of a script (C6) -/

/-- The user-facing economic operations named by the spec overview
sentence (mint, redeem, push/pull balance, pay debts, claim). -/
def userOps : List String := ["mint", "redeem", "pushBalance", "pullPending", "payDebts", "claim"]

/-- The economic operations the spec interface section lists as exercised
by the smoke test. -/
def economicOps : List String :=
  ["mint", "pullPending", "pushBalance", "approve", "redeem", "redeemUnderlying",
   "payDebts", "claim", "registerValidator"]

/-- True when every user-facing operation is invoked by the sequence. -/
def invokesUserOps (l : List Call) : Bool := userOps.all (invokes l)

/-- Exactly two distinct signer identities appear as senders. -/
def twoSigners (l : List Call) : Bool := (senders l).dedup.length == 2

/-- Exactly four distinct contract kinds are deployed. -/
def fourKinds (l : List Call) : Bool := (deployedKinds l).dedup.length == 4

/-- Some initialize call and every wiring setter appear in the sequence. -/
def hasInitAndSetters (l : List Call) : Bool :=
  invokes l "initialize" && wiringNames.all (invokes l)

/-- The per-script shape claim C6 asserts: two signers, four deployed
kinds, initialization and configuration setters, then the user-facing
operations. -/
def scriptShapeC6 (l : List Call) : Bool :=
  twoSigners l && fourKinds l && hasInitAndSetters l && invokesUserOps l

/-! ## General lemmas about execution with failure -/

/-- Any execution of a straight-line script issues a prefix of its call
sequence: the issued calls are some initial segment, so no call is retried
and no position is issued twice. -/
theorem issuedFrom_is_take (fails : Nat → Bool) :
    ∀ (i : Nat) (l : List Call), ∃ n, issuedFrom fails i l = l.take n := by
  intro i l
  induction l generalizing i with
  | nil => exact ⟨0, rfl⟩
  | cons c rest ih =>
      cases hfi : fails i with
      | true => exact ⟨1, by simp [issuedFrom, hfi]⟩
      | false =>
          obtain ⟨n, hn⟩ := ih (i + 1)
          exact ⟨n + 1, by simp [issuedFrom, hfi, hn]⟩

/-- When the first failing position is i + k, execution issues exactly the
calls up to and including position i + k and nothing after it. -/
theorem issuedFrom_stops (fails : Nat → Bool) :
    ∀ (k i : Nat) (l : List Call), (∀ j, j < k → fails (i + j) = false) →
      fails (i + k) = true → issuedFrom fails i l = l.take (k + 1) := by
  intro k
  induction k with
  | zero =>
      intro i l h0 hk
      cases l with
      | nil => rfl
      | cons c rest =>
          have hfi : fails i = true := by simpa using hk
          simp [issuedFrom, hfi]
  | succ k ih =>
      intro i l h0 hk
      cases l with
      | nil => rfl
      | cons c rest =>
          have hfi : fails i = false := by simpa using h0 0 (Nat.succ_pos k)
          have hrest : issuedFrom fails (i + 1) rest = rest.take (k + 1) := by
            apply ih
            · intro j hj
              have hj2 := h0 (j + 1) (by omega)
              have e : i + (j + 1) = i + 1 + j := by omega
              rwa [e] at hj2
            · have e : i + (k + 1) = i + 1 + k := by omega
              rwa [e] at hk
          simp [issuedFrom, hfi, hrest]

/-! ## The claims -/

/-- C1: in both scripts every TransparentUpgradeableProxy deployment comes
after the deployment of the implementation contract it wraps, and each
proxy is constructed with exactly three arguments: the implementation
address, an admin account address, and the empty initializer bytes.  The
count conjuncts show the check covers three proxy deployments per script. -/
theorem c1_proxy_after_impl :
    proxiesAfterImpls [] ganacheCalls = true ∧
    proxiesAfterImpls [] testnetCalls = true ∧
    (deployedKinds ganacheCalls).count ContractKind.proxyKind = 3 ∧
    (deployedKinds testnetCalls).count ContractKind.proxyKind = 3 := by decide

/-- C2 counterexample: the two call sequences are not identical even after
erasing amounts, deadlines, gas and mapping accounts to their roles,
because ganache_deploy goes on to issue the smoke-test operations that
testnet_deploy never issues (36 calls against 11). -/
theorem c2_sequences_differ :
    ¬ (eraseSeq roleG ganacheCalls = eraseSeq roleT testnetCalls) ∧
    ganacheCalls.length = 36 ∧ testnetCalls.length = 11 := by decide

/-- C2 (amended): up to erasure of amounts, timing parameters (deadlines,
gas) and the identities of the owner and deployer accounts, the testnet
sequence coincides with the first eleven calls of the ganache sequence
(the deployments, initializations and wiring); the ganache script then
issues the additional smoke-test calls. -/
theorem c2_common_segment :
    eraseSeq roleT testnetCalls = (eraseSeq roleG ganacheCalls).take 11 ∧
    testnetCalls.length = 11 := by decide

/-- C3 counterexample: under the claimed five-phase classification
(implementation deployments, proxy deployments, initialize calls, wiring
setters, smoke-test operations) neither sequence is monotone: the phases
of the first three ganache calls are 0, 1, 0, since the stIOTX proxy is
deployed before the IOTEXStaking implementation. -/
theorem c3_five_phases_fail :
    nondecr (ganacheCalls.map phase5) = false ∧
    nondecr (testnetCalls.map phase5) = false ∧
    (ganacheCalls.map phase5).take 3 = [0, 1, 0] ∧
    (testnetCalls.map phase5).take 3 = [0, 1, 0] := by decide

/-- C3 (amended): each sequence proceeds in three strict global phases —
all deployments, then all initialize and wiring calls, then the scripted
smoke-test operations — and within the middle phase every wiring setter is
sent to a contract that has already received its initialize call.
Deployments interleave implementations and proxies per contract, and
initialize calls interleave with setters across contracts, so the claimed
five-phase split does not hold. -/
theorem c3_three_phases_hold :
    nondecr (ganacheCalls.map phase3) = true ∧
    nondecr (testnetCalls.map phase3) = true ∧
    initBeforeSetters [] ganacheCalls = true ∧
    initBeforeSetters [] testnetCalls = true := by decide

/-- C4 counterexample: neither script ever issues a registerValidator
call, so the spec list of exercised economic operations is not fully
invoked. -/
theorem c4_registerValidator_missing :
    invokes ganacheCalls "registerValidator" = false ∧
    invokes testnetCalls "registerValidator" = false ∧
    economicOps.all (fun n => invokes ganacheCalls n || invokes testnetCalls n) = false := by decide

/-- C4 (amended): every economic operation of the spec list except
registerValidator — mint, pullPending, pushBalance, approve, redeem,
redeemUnderlying, payDebts, claim — is invoked at least once (all by the
ganache script), and the read-only observers are exercised as well, but
registerValidator is invoked by neither script. -/
theorem c4_ops_exercised :
    economicOps.dropLast.all (invokes ganacheCalls) = true ∧
    observes ganacheCalls "exchangeRatio" = true ∧
    observes ganacheCalls "balanceOf" = true ∧
    observes ganacheCalls "allowance" = true ∧
    observes ganacheCalls "debtOf" = true ∧
    invokes (ganacheCalls ++ testnetCalls) "registerValidator" = false := by decide

/-- C5: execution is straight line with no handler, so if the call at
position k is the first to fail, the script issues exactly the calls up to
and including position k and nothing later; and for any failure pattern
the issued calls are an initial segment of the fixed sequence, so no call
is retried and no position is issued more than once. -/
theorem c5_halt_on_failure (fails : Nat → Bool) (k : Nat)
    (hfirst : ∀ j, j < k → fails j = false) (hk : fails k = true) :
    issuedFrom fails 0 ganacheCalls = ganacheCalls.take (k + 1) ∧
    issuedFrom fails 0 testnetCalls = testnetCalls.take (k + 1) ∧
    ∀ g : Nat → Bool,
      (∃ n, issuedFrom g 0 ganacheCalls = ganacheCalls.take n) ∧
      (∃ m, issuedFrom g 0 testnetCalls = testnetCalls.take m) := by
  refine ⟨?_, ?_, ?_⟩
  · exact issuedFrom_stops fails k 0 ganacheCalls (by simpa using hfirst) (by simpa using hk)
  · exact issuedFrom_stops fails k 0 testnetCalls (by simpa using hfirst) (by simpa using hk)
  · intro g
    exact ⟨issuedFrom_is_take g 0 ganacheCalls, issuedFrom_is_take g 0 testnetCalls⟩

/-- Witness for C5: when position 2 (the IOTEXStaking implementation
deployment) is the first failure, exactly the first three ganache calls
are issued. -/
theorem c5_halt_on_failure_witness :
    issuedFrom (fun j => decide (j = 2)) 0 ganacheCalls = ganacheCalls.take 3 :=
  (c5_halt_on_failure (fun j => decide (j = 2)) 2 (by decide) (by decide)).1

/-- C6 counterexample: the per-script shape asserted by the claim fails
for testnet_deploy, which never invokes any of the user-facing operations
mint, redeem, pushBalance, pullPending, payDebts, claim. -/
theorem c6_testnet_lacks_user_ops :
    scriptShapeC6 ganacheCalls = true ∧
    scriptShapeC6 testnetCalls = false ∧
    invokesUserOps testnetCalls = false := by decide

/-- C6 (amended): each script acquires exactly two signer identities and
deploys contract instances of exactly four kinds, then calls
initialization and configuration setters; the ganache script additionally
invokes the user-facing operations, while the testnet script stops after
the wiring setters and invokes none of them. -/
theorem c6_script_shape :
    twoSigners ganacheCalls = true ∧ fourKinds ganacheCalls = true ∧
    hasInitAndSetters ganacheCalls = true ∧ invokesUserOps ganacheCalls = true ∧
    twoSigners testnetCalls = true ∧ fourKinds testnetCalls = true ∧
    hasInitAndSetters testnetCalls = true ∧ invokesUserOps testnetCalls = false := by decide

/-- C7: every initialize call of either script passes no contract-level
arguments and supplies only a sender and a gas limit; the target lists
show each script issues exactly two such calls, on the proxy-wrapped
stIOTX and IOTEXStaking contracts. -/
theorem c7_init_calls_bare :
    initCallsBare ganacheCalls = true ∧ initCallsBare testnetCalls = true ∧
    initTargets ganacheCalls = [ContractId.stIOTXProxyId, ContractId.stakingProxyId] ∧
    initTargets testnetCalls = [ContractId.stIOTXProxyId, ContractId.stakingProxyId] := by decide

/-- C8: in both scripts the deployer account is the admin argument of all
three proxy deployments, and every state-changing call sent through a
proxy-wrapped contract is sent from the owner account, which is distinct
from the deployer; the proxy admin never calls through a proxy. -/
theorem c8_admin_never_calls_through_proxy :
    proxyAdmins ganacheCalls = [deployerG, deployerG, deployerG] ∧
    proxyAdmins testnetCalls = [deployerT, deployerT, deployerT] ∧
    (proxySenders ganacheCalls).all (fun a => !(a == deployerG) && a == ownerG) = true ∧
    (proxySenders testnetCalls).all (fun a => !(a == deployerT) && a == ownerT) = true ∧
    ownerG ≠ deployerG ∧ ownerT ≠ deployerT := by decide

/-- C9: every one of the eleven testnet transactions (six deployments and
five initialization/wiring calls) carries the explicit gas limit
GAS_LIMIT = 6721975, whereas the first four ganache calls — the stIOTX and
IOTEXStaking implementation and proxy deployments — carry no explicit gas
limit. -/
theorem c9_gas_limits :
    GAS_LIMIT = 6721975 ∧
    gasFields testnetCalls = List.replicate 11 (some GAS_LIMIT) ∧
    testnetCalls.length = 11 ∧
    (deployedKinds testnetCalls).length = 6 ∧
    gasFields (ganacheCalls.take 4) = [none, none, none, none] ∧
    deployedKinds (ganacheCalls.take 4) =
      [ContractKind.stIOTXKind, ContractKind.proxyKind,
       ContractKind.stakingKind, ContractKind.proxyKind] := by decide

/-- C10: every deadline argument of the time-limited ganache operations
mint, redeem and redeemUnderlying is time.time() + 600 at the moment the
call is built, hence strictly later than the wall-clock time t at which it
is built. -/
theorem c10_deadlines_in_future (c : Call) (hc : c ∈ ganacheCalls)
    (ht : isTimed c = true) (t : Nat) :
    deadlineOffsets c = [600] ∧
    ∀ k ∈ deadlineOffsets c, t < deadlineValue t k := by
  have h : deadlineOffsets c = [600] := by
    have hall : ∀ x ∈ ganacheCalls, isTimed x = true → deadlineOffsets x = [600] := by decide
    exact hall c hc ht
  refine ⟨h, ?_⟩
  intro k hk
  rw [h] at hk
  simp only [List.mem_singleton] at hk
  subst hk
  simp only [deadlineValue]
  omega

/-- Witness for C10: the mint call of the ganache script, built at time 5,
carries the single deadline offset 600 and its deadline lies after 5. -/
theorem c10_deadlines_in_future_witness :
    deadlineOffsets (Call.contractCall ContractId.stakingProxyId "mint"
      [Arg.natAmt 0, Arg.deadlineArg 600] (txv ownerG "1 ethers")) = [600] ∧
    ∀ k ∈ deadlineOffsets (Call.contractCall ContractId.stakingProxyId "mint"
      [Arg.natAmt 0, Arg.deadlineArg 600] (txv ownerG "1 ethers")),
      5 < deadlineValue 5 k :=
  c10_deadlines_in_future
    (Call.contractCall ContractId.stakingProxyId "mint"
      [Arg.natAmt 0, Arg.deadlineArg 600] (txv ownerG "1 ethers"))
    (by decide) (by decide) 5

end IotexStaking
